import Mathlib

/-!
Shallow embedding of `src/VMAF/VMAF.cpp` (vapoursynth-vmafcuda): a
VapourSynth filter that feeds synchronized reference/distorted frame
pairs to libvmaf's CUDA scoring context and writes pooled scores at
teardown.

The embedding models the three entry points of the plugin:

* `vmafCreate`  (lines 156-302): setup-time validation, engine/CUDA
  context initialization, model and feature resolution.  External engine
  calls (`vmaf_model_load`, `vmaf_model_collection_load`,
  `vmaf_use_features_from_model`, `vmaf_use_features_from_model_collection`,
  `vmaf_use_feature`, `vmaf_init`, `vmaf_cuda_state_init`,
  `vmaf_cuda_import_state`) are oracles in `CreateEnv` deciding which
  calls succeed; the calls actually issued are recorded in an
  `EngineCall` trace.
* `vmafGetFrame` (lines 64-121, the `arAllFramesReady` branch): per-frame
  picture allocation, plane copies, submission; the observable behaviour
  is the event trace plus the returned frame.
* `vmafFree` (lines 123-154): teardown flush, pooled-score extraction,
  log write, handle destruction; again an event trace.

C++ exceptions: the `vmafCreate` body throws both `std::string` values
(`"..."s`) and plain `const char*` literals, but its handler is
`catch (const std::string&)` only, so `const char*` throws escape the
function.  The embedding keeps the two outcomes distinct:
`CreateResult.fail` is the handled path (error message set on the output
map, acquired resources released), `CreateResult.uncaught` is an
escaping exception.  In `vmafGetFrame` all throws are `const char*` and
the handler catches `const char*`, so that distinction is not needed
there.
-/

/-! ## VapourSynth data model (VapourSynth4.h / VSHelper4.h) -/

def cfUndefined : Nat := 0

def cfGray : Nat := 1

def cfRGB : Nat := 2

def cfYUV : Nat := 3

def stInteger : Nat := 0

def stFloat : Nat := 1

structure VSVideoFormat where
  colorFamily : Nat
  sampleType : Nat
  bitsPerSample : Nat
  bytesPerSample : Nat
  subSamplingW : Nat
  subSamplingH : Nat
  numPlanes : Nat
deriving DecidableEq, Repr

structure VSVideoInfo where
  format : VSVideoFormat
  width : Int
  height : Int
  numFrames : Int
deriving DecidableEq, Repr

/-- `vsh::isConstantVideoFormat` from VSHelper4.h. -/
def isConstantVideoFormat (vi : VSVideoInfo) : Bool :=
  vi.format.colorFamily != cfUndefined && vi.width > 0 && vi.height > 0

/-- `vsh::isSameVideoFormat` from VSHelper4.h. -/
def isSameVideoFormat (f1 f2 : VSVideoFormat) : Bool :=
  f1.colorFamily == f2.colorFamily && f1.sampleType == f2.sampleType &&
  f1.bitsPerSample == f2.bitsPerSample && f1.subSamplingW == f2.subSamplingW &&
  f1.subSamplingH == f2.subSamplingH

/-- `vsh::isSameVideoInfo` from VSHelper4.h (does not compare `numFrames`;
the plugin checks frame counts separately at line 221). -/
def isSameVideoInfo (v1 v2 : VSVideoInfo) : Bool :=
  v1.height == v2.height && v1.width == v2.width && isSameVideoFormat v1.format v2.format

/-! ## libvmaf constants and name tables (lines 43-46) -/

def VMAF_PIX_FMT_YUV420P : Nat := 1

def VMAF_PIX_FMT_YUV422P : Nat := 2

def VMAF_PIX_FMT_YUV444P : Nat := 3

/-- `modelVersion[]` table at line 44, indexed by the validated model id. -/
def modelVersion (id : Int) : String :=
  if id = 0 then "vmaf_v0.6.1"
  else if id = 1 then "vmaf_v0.6.1neg"
  else if id = 2 then "vmaf_b_v0.6.3"
  else if id = 3 then "vmaf_4k_v0.6.1"
  else ""

/-- `featureName[]` table at line 46, indexed by the validated feature id. -/
def featureNameStr (id : Int) : String :=
  if id = 0 then "psnr"
  else if id = 1 then "psnr_hvs"
  else if id = 2 then "float_ssim"
  else if id = 3 then "float_ms_ssim"
  else if id = 4 then "ciede"
  else ""

/-- Encoding of a validated `log_format` selector into the engine's
`VmafOutputFormat` (`static_cast<VmafOutputFormat>(logFormat + 1)`,
line 195). -/
def vmafLogFormatOf (selector : Int) : Int := selector + 1

/-! ## Filter instance data (`struct VMAFData`, lines 48-62)

Engine handles are opaque pointers in the source; the embedding
represents a model handle (resp. collection handle) by the integer model
id it was loaded from, which identifies it uniquely because duplicate
ids are rejected.  `trace` records the engine registration calls issued
during `vmafCreate`, in order; the source's `d->vmaf` scoring context is
the implicit receiver of those calls. -/

inductive EngineCall where
  | loadModel (id : Int)
  | loadCollection (id : Int)
  | useModel (id : Int)
  | useCollection (id : Int)
  | useFeature (id : Int)
deriving DecidableEq, Repr

structure VMAFData where
  filterName : String
  logPath : String
  logFormat : Int
  model : List Int
  modelCollection : List Int
  chroma : Bool
  pixelFormat : Nat
  vi : VSVideoInfo
  trace : List EngineCall
deriving DecidableEq, Repr

/-! ## vmafCreate (lines 156-302) -/

/-- The input map of `vmafCreate`: `none` models an omitted optional
argument (`mapGetIntSaturated` then yields 0 with an error flag the code
ignores; `mapNumElements` yields -1, so the id loops run zero times). -/
structure CreateIn where
  refVi : VSVideoInfo
  distVi : VSVideoInfo
  logPath : String
  logFormat : Option Int
  model : Option (List Int)
  feature : Option (List Int)
deriving DecidableEq, Repr

/-- Oracle for the fallible engine calls made during `vmafCreate`.
Per-model and per-feature calls are indexed by the id being processed
(each id is processed at most once: a second occurrence is rejected as a
duplicate before any call for it is made). -/
structure CreateEnv where
  initOk : Bool
  cudaStateOk : Bool
  cudaImportOk : Bool
  modelLoadOk : Int → Bool
  collectionLoadOk : Int → Bool
  useModelOk : Int → Bool
  useCollectionOk : Int → Bool
  useFeatureOk : Int → Bool

/-- Outcome of `vmafCreate`.
* `filter d`: `createVideoFilter` was called with instance data `d`.
* `fail msg dAtThrow`: a thrown `std::string` was caught at line 283:
  `msg` is set on the output map and the handler releases `dAtThrow`'s
  resources (nodes, every loaded model and collection, the context).
* `uncaught msg`: a thrown `const char*` does not match the
  `catch (const std::string&)` handler and escapes `vmafCreate`: no
  error is set on the output map and nothing is released. -/
inductive CreateResult where
  | filter (d : VMAFData)
  | fail (msg : String) (dAtThrow : VMAFData)
  | uncaught (msg : String)
deriving DecidableEq, Repr

def CreateResult.isFilter : CreateResult → Bool
  | .filter _ => true
  | _ => false

def CreateResult.failMsg : CreateResult → Option String
  | .fail msg _ => some msg
  | _ => none

/-- One iteration of the model loop (lines 232-257): range check,
duplicate check over the whole array, then `vmaf_model_load`; on its
failure `vmaf_model_collection_load` (which also stores the resulting
model handle into `d->model[i]`); then feature-extractor registration
for whichever variant loaded. -/
def modelStep (env : CreateEnv) (all : List Int) (id : Int) (d : VMAFData) :
    Except (String × VMAFData) VMAFData :=
  if id < 0 || id > 3 then .error ("model must be 0, 1, 2, or 3", d)
  else if all.count id > 1 then .error ("duplicate model specified", d)
  else
    let dA := { d with trace := d.trace ++ [EngineCall.loadModel id] }
    if env.modelLoadOk id then
      let dB := { dA with model := dA.model ++ [id],
                          trace := dA.trace ++ [EngineCall.useModel id] }
      if env.useModelOk id then .ok dB
      else .error ("failed to load feature extractors from model: " ++ modelVersion id, dB)
    else
      let dB := { dA with trace := dA.trace ++ [EngineCall.loadCollection id] }
      if env.collectionLoadOk id then
        let dC := { dB with model := dB.model ++ [id],
                            modelCollection := dB.modelCollection ++ [id],
                            trace := dB.trace ++ [EngineCall.useCollection id] }
        if env.useCollectionOk id then .ok dC
        else .error ("failed to load feature extractors from model collection: "
                      ++ modelVersion id, dC)
      else .error ("failed to load model: " ++ modelVersion id, dB)

def modelLoop (env : CreateEnv) (all : List Int) :
    List Int → VMAFData → Except (String × VMAFData) VMAFData
  | [], d => .ok d
  | id :: rest, d =>
    match modelStep env all id d with
    | .ok d2 => modelLoop env all rest d2
    | .error e => .error e

/-- One iteration of the feature loop (lines 259-275): range check,
duplicate check, `vmaf_use_feature`, then the `switch` setting
`d->chroma = true` for feature ids 0, 1 and 4. -/
def featureStep (env : CreateEnv) (all : List Int) (id : Int) (d : VMAFData) :
    Except (String × VMAFData) VMAFData :=
  if id < 0 || id > 4 then .error ("feature must be 0, 1, 2, 3, or 4", d)
  else if all.count id > 1 then .error ("duplicate feature specified", d)
  else
    let dA := { d with trace := d.trace ++ [EngineCall.useFeature id] }
    if env.useFeatureOk id then
      .ok (if (id == 0 || id == 1 || id == 4) then { dA with chroma := true } else dA)
    else .error ("failed to load feature extractor: " ++ featureNameStr id, dA)

def featureLoop (env : CreateEnv) (all : List Int) :
    List Int → VMAFData → Except (String × VMAFData) VMAFData
  | [], d => .ok d
  | id :: rest, d =>
    match featureStep env all id d with
    | .ok d2 => featureLoop env all rest d2
    | .error e => .error e

/-- The tail of `vmafCreate` after all scalar validation: the model
loop (lines 232-257), the feature loop (lines 259-275) and the pixel
format selection (lines 277-282), run on the instance data accumulated
so far. -/
def vmafCreateTail (inp : CreateIn) (env : CreateEnv) (d2 : VMAFData) : CreateResult :=
  match modelLoop env (inp.model.getD []) (inp.model.getD []) d2 with
  | .error (m, dT) => CreateResult.fail ("VMAF: " ++ m) dT
  | .ok d3 =>
    match featureLoop env (inp.feature.getD []) (inp.feature.getD []) d3 with
    | .error (m, dT) => CreateResult.fail ("VMAF: " ++ m) dT
    | .ok d4 =>
      let pf :=
        if inp.refVi.format.subSamplingW == 1 && inp.refVi.format.subSamplingH == 1 then
          VMAF_PIX_FMT_YUV420P
        else if inp.refVi.format.subSamplingW == 1 && inp.refVi.format.subSamplingH == 0 then
          VMAF_PIX_FMT_YUV422P
        else VMAF_PIX_FMT_YUV444P
      CreateResult.filter { d4 with pixelFormat := pf }

/-- The instance data as value-initialized by
`std::make_unique<VMAFData>()` with `d->vi` set (lines 157-166). -/
def vmafD0 (inp : CreateIn) : VMAFData :=
  { filterName := "VMAF", logPath := "", logFormat := 0, model := [],
    modelCollection := [], chroma := false, pixelFormat := 0,
    vi := inp.refVi, trace := [] }

/-- The instance data after `d->logPath` is read (line 189). -/
def vmafD1 (inp : CreateIn) : VMAFData :=
  { vmafD0 inp with logPath := inp.logPath }

/-- The instance data after `d->logFormat` is set (line 195). -/
def vmafD2 (inp : CreateIn) : VMAFData :=
  { vmafD1 inp with logFormat := vmafLogFormatOf (inp.logFormat.getD 0) }

/-- `vmafCreate` (lines 156-302).  The filter name is the `userData`
string `"VMAF"` passed by `registerFunction` (line 318).  Checks appear
in source order; `std::string` throws become `fail` (handled at line
283, message prefixed with the filter name), `const char*` throws become
`uncaught` (lines 172, 181, 212, 215: no matching handler). -/
def vmafCreate (inp : CreateIn) (env : CreateEnv) : CreateResult :=
  if !isConstantVideoFormat inp.refVi
      || inp.refVi.format.colorFamily != cfYUV
      || inp.refVi.format.sampleType != stInteger then
    CreateResult.uncaught "only constant YUV format integer input supported"
  else if !(inp.refVi.format.bitsPerSample == 8 || inp.refVi.format.bitsPerSample == 10
      || inp.refVi.format.bitsPerSample == 12 || inp.refVi.format.bitsPerSample == 16) then
    CreateResult.uncaught "only 8, 10, 12 and 16 bit depth supported"
  else if !((inp.refVi.format.subSamplingW == 1 && inp.refVi.format.subSamplingH == 1)
      || (inp.refVi.format.subSamplingW == 1 && inp.refVi.format.subSamplingH == 0)
      || (inp.refVi.format.subSamplingW == 0 && inp.refVi.format.subSamplingH == 0)) then
    CreateResult.fail ("VMAF: only 420/422/444 chroma subsampling is supported") (vmafD0 inp)
  else if (inp.logFormat.getD 0) < 0 || (inp.logFormat.getD 0) > 3 then
    CreateResult.fail "VMAF: log_format must be 0, 1, 2, or 3" (vmafD1 inp)
  else if !env.initOk then
    CreateResult.fail "VMAF: failed to initialize VMAF context" (vmafD2 inp)
  else if !env.cudaStateOk then CreateResult.uncaught "problem during vmaf_cuda_state_init"
  else if !env.cudaImportOk then CreateResult.uncaught "problem during vmaf_cuda_import_state"
  else if !isSameVideoInfo inp.distVi inp.refVi then
    CreateResult.fail "VMAF: both clips must have the same format and dimensions" (vmafD2 inp)
  else if inp.distVi.numFrames != inp.refVi.numFrames then
    CreateResult.fail "VMAF: both clips' number of frames do not match" (vmafD2 inp)
  else
    vmafCreateTail inp env (vmafD2 inp)

/-! ## vmafGetFrame (lines 64-121, `arAllFramesReady` branch)

Host frames are opaque handles: `HostFrame.ref` is the frame obtained by
`getFrameFilter(n, d->reference)` and `HostFrame.dist` the one from
`getFrameFilter(n, d->distorted)`.  The function's observable behaviour
is the ordered event trace plus the returned frame (`none` models the
`return nullptr` of the error path). -/

inductive HostFrame where
  | ref
  | dist
deriving DecidableEq, Repr

inductive Pic where
  | ref
  | dist
deriving DecidableEq, Repr

inductive GFEvent where
  | getFrame (f : HostFrame)
  | alloc (p : Pic)
  | copyPlane (p : Pic) (plane : Nat)
  | readPictures (idx : Int)
  | setError (msg : String)
  | freeFrame (f : HostFrame)
  | unrefPic (p : Pic)
deriving DecidableEq, Repr

/-- Oracle for the fallible engine calls of one `vmafGetFrame` call:
the two `vmaf_picture_alloc` calls (line 79-80, `||` short-circuits, so
the distorted alloc is attempted only if the reference alloc succeeded)
and `vmaf_read_pictures` (line 102). -/
structure FrameEnv where
  allocRefOk : Bool
  allocDistOk : Bool
  readOk : Bool
deriving DecidableEq, Repr

/-- The planes copied by the loop at lines 83-100: plane 0 to
`numPlanes - 1`, but `if (plane && !d->chroma) break;` stops before any
chroma plane when the chroma flag is off. -/
def copiedPlanes (numPlanes : Nat) (chroma : Bool) : List Nat :=
  if chroma then List.range numPlanes else (List.range numPlanes).take 1

/-- Per-plane `vsh::bitblt` calls: for each copied plane, first into the
reference picture, then into the distorted picture (lines 87-99). -/
def copyEvents (numPlanes : Nat) (chroma : Bool) : List GFEvent :=
  (copiedPlanes numPlanes chroma).flatMap
    (fun p => [GFEvent.copyPlane Pic.ref p, GFEvent.copyPlane Pic.dist p])

/-- The `catch (const char* error)` handler at lines 104-114: set the
filter error on the frame context, free both host frames, unref both
engine pictures, return `nullptr`. -/
def gfFail (d : VMAFData) (acc : List GFEvent) (msg : String) :
    List GFEvent × Option HostFrame :=
  (acc ++ [GFEvent.setError (d.filterName ++ ": " ++ msg),
           GFEvent.freeFrame HostFrame.ref, GFEvent.freeFrame HostFrame.dist,
           GFEvent.unrefPic Pic.ref, GFEvent.unrefPic Pic.dist], none)

/-- `vmafGetFrame` for `activationReason == arAllFramesReady`
(lines 71-118). -/
def vmafGetFrame (d : VMAFData) (n : Int) (env : FrameEnv) :
    List GFEvent × Option HostFrame :=
  let pre := [GFEvent.getFrame HostFrame.ref, GFEvent.getFrame HostFrame.dist]
  if !env.allocRefOk then
    gfFail d (pre ++ [GFEvent.alloc Pic.ref]) "failed to allocate picture"
  else if !env.allocDistOk then
    gfFail d (pre ++ [GFEvent.alloc Pic.ref, GFEvent.alloc Pic.dist])
      "failed to allocate picture"
  else
    let acc := pre ++ [GFEvent.alloc Pic.ref, GFEvent.alloc Pic.dist]
      ++ copyEvents d.vi.format.numPlanes d.chroma ++ [GFEvent.readPictures n]
    if !env.readOk then gfFail d acc "failed to read pictures"
    else (acc ++ [GFEvent.freeFrame HostFrame.dist], some HostFrame.ref)

/-! ## vmafFree (lines 123-154) -/

inductive FreeEvent where
  | freeNode (f : HostFrame)
  | flush (idx : Int)
  | logMsg (msg : String)
  | scorePooled (handle : Int) (lo hi : Int)
  | scorePooledCollection (handle : Int) (lo hi : Int)
  | writeOutput (path : String) (fmt : Int)
  | modelDestroy (handle : Int)
  | collectionDestroy (handle : Int)
  | close
deriving DecidableEq, Repr

/-- Oracle for the fallible engine calls of `vmafFree`: the flush
(line 133), `vmaf_score_pooled` per model handle (line 137),
`vmaf_score_pooled_model_collection` per collection handle (line 141)
and `vmaf_write_output` (line 144). -/
structure FreeEnv where
  flushOk : Bool
  poolOk : Int → Bool
  poolCollOk : Int → Bool
  writeOk : Bool

/-- `vmaf_score_pooled` attempt for one model handle, plus the
`logMessage` on failure (lines 136-138). -/
def poolStep (d : VMAFData) (env : FreeEnv) (m : Int) : List FreeEvent :=
  FreeEvent.scorePooled m 0 (d.vi.numFrames - 1) ::
    (if env.poolOk m then []
     else [FreeEvent.logMsg (d.filterName ++ ": failed to generate pooled VMAF score")])

/-- `vmaf_score_pooled_model_collection` attempt for one collection
handle, plus the `logMessage` on failure (lines 140-142). -/
def poolCollStep (d : VMAFData) (env : FreeEnv) (c : Int) : List FreeEvent :=
  FreeEvent.scorePooledCollection c 0 (d.vi.numFrames - 1) ::
    (if env.poolCollOk c then []
     else [FreeEvent.logMsg (d.filterName ++ ": failed to generate pooled VMAF score")])

/-- `vmafFree` (lines 123-154) as its ordered event trace.  Every step
runs unconditionally; a failing step only emits a `mtCritical` log
message and the sequence continues.  Note the flush is
`vmaf_read_pictures(d->vmaf, nullptr, nullptr, 0)`: the index argument
passed is the literal `0`. -/
def vmafFree (d : VMAFData) (env : FreeEnv) : List FreeEvent :=
  [FreeEvent.freeNode HostFrame.ref, FreeEvent.freeNode HostFrame.dist]
  ++ (FreeEvent.flush 0 ::
      (if env.flushOk then []
       else [FreeEvent.logMsg (d.filterName ++ ": failed to flush context")]))
  ++ d.model.flatMap (poolStep d env)
  ++ d.modelCollection.flatMap (poolCollStep d env)
  ++ (FreeEvent.writeOutput d.logPath d.logFormat ::
      (if env.writeOk then []
       else [FreeEvent.logMsg (d.filterName ++ ": failed to write VMAF stats")]))
  ++ d.model.map FreeEvent.modelDestroy
  ++ d.modelCollection.map FreeEvent.collectionDestroy
  ++ [FreeEvent.close]

/-! ## Concrete fixtures (8-bit YUV 4:2:0, 64x64, 3 frames) -/

def dBase : VMAFData :=
  { filterName := "VMAF", logPath := "", logFormat := 0, model := [],
    modelCollection := [], chroma := false, pixelFormat := 0,
    vi := { format := { colorFamily := 3, sampleType := 0, bitsPerSample := 8,
                        bytesPerSample := 1, subSamplingW := 1, subSamplingH := 1,
                        numPlanes := 3 },
            width := 64, height := 64, numFrames := 3 },
    trace := [] }

def fmt420 : VSVideoFormat :=
  { colorFamily := cfYUV, sampleType := stInteger, bitsPerSample := 8,
    bytesPerSample := 1, subSamplingW := 1, subSamplingH := 1, numPlanes := 3 }

def viEx : VSVideoInfo := { format := fmt420, width := 64, height := 64, numFrames := 3 }

def envOk : CreateEnv :=
  { initOk := true, cudaStateOk := true, cudaImportOk := true,
    modelLoadOk := fun _ => true, collectionLoadOk := fun _ => true,
    useModelOk := fun _ => true, useCollectionOk := fun _ => true,
    useFeatureOk := fun _ => true }

def freeEnvOk : FreeEnv :=
  { flushOk := true, poolOk := fun _ => true, poolCollOk := fun _ => true,
    writeOk := true }

def frameEnvOk : FrameEnv := { allocRefOk := true, allocDistOk := true, readOk := true }

def dEx : VMAFData :=
  { filterName := "VMAF", logPath := "log.xml", logFormat := 1, model := [0],
    modelCollection := [], chroma := false, pixelFormat := VMAF_PIX_FMT_YUV420P,
    vi := viEx, trace := [EngineCall.loadModel 0, EngineCall.useModel 0] }

/-! ## Helper lemmas -/

theorem mem_copyEvents {np : Nat} {c : Bool} {e : GFEvent} (he : e ∈ copyEvents np c) :
    ∃ p k, e = GFEvent.copyPlane p k := by
  simp only [copyEvents, List.mem_flatMap, List.mem_cons, List.not_mem_nil, or_false] at he
  obtain ⟨k, -, hk | hk⟩ := he
  · exact ⟨Pic.ref, k, hk⟩
  · exact ⟨Pic.dist, k, hk⟩

theorem copyEvents_count_ne {np : Nat} {c : Bool} {e : GFEvent}
    (h : ∀ p k, e ≠ GFEvent.copyPlane p k) : (copyEvents np c).count e = 0 := by
  rw [List.count_eq_zero]
  intro hmem
  obtain ⟨p, k, rfl⟩ := mem_copyEvents hmem
  exact h p k rfl

/-! ## Claim theorems -/

/-- C1: for every frame index `n` whose processing succeeds (both
pictures allocated, planes copied, submission accepted), the distorted
host frame is freed, the reference host frame is returned as the step's
output (and is not freed), and the only engine effect is the
`vmaf_read_pictures` submission tagged with `n`. -/
theorem frame_success_passthrough (d : VMAFData) (n : Int) (env : FrameEnv)
    (h1 : env.allocRefOk = true) (h2 : env.allocDistOk = true)
    (h3 : env.readOk = true) :
    (vmafGetFrame d n env).2 = some HostFrame.ref ∧
    GFEvent.freeFrame HostFrame.dist ∈ (vmafGetFrame d n env).1 ∧
    GFEvent.freeFrame HostFrame.ref ∉ (vmafGetFrame d n env).1 ∧
    GFEvent.readPictures n ∈ (vmafGetFrame d n env).1 := by
  have hcopy : GFEvent.freeFrame HostFrame.ref ∉ copyEvents d.vi.format.numPlanes d.chroma := by
    intro hm
    obtain ⟨p, k, hpk⟩ := mem_copyEvents hm
    cases hpk
  refine ⟨?_, ?_, ?_, ?_⟩ <;> simp [vmafGetFrame, h1, h2, h3, hcopy]

/-- C1 witness at a concrete instance. -/
theorem frame_success_passthrough_witness :
    (frameEnvOk.allocRefOk = true ∧ frameEnvOk.allocDistOk = true ∧
      frameEnvOk.readOk = true) ∧
    ((vmafGetFrame dEx 0 frameEnvOk).2 = some HostFrame.ref ∧
      GFEvent.freeFrame HostFrame.dist ∈ (vmafGetFrame dEx 0 frameEnvOk).1 ∧
      GFEvent.freeFrame HostFrame.ref ∉ (vmafGetFrame dEx 0 frameEnvOk).1 ∧
      GFEvent.readPictures 0 ∈ (vmafGetFrame dEx 0 frameEnvOk).1) :=
  ⟨⟨rfl, rfl, rfl⟩, frame_success_passthrough dEx 0 frameEnvOk rfl rfl rfl⟩

/-- C2: on any per-frame failure (allocation or submission), a named
failure reason prefixed with the filter name is set on the frame
context, the trace ends with the release of both host frames and both
engine pictures (so every release happens before control returns with
no output), no output frame is produced, and no call is retried (each
allocation and the submission are attempted at most once). -/
theorem frame_failure_cleanup (d : VMAFData) (n : Int) (env : FrameEnv)
    (h : (env.allocRefOk && env.allocDistOk && env.readOk) = false) :
    (vmafGetFrame d n env).2 = none ∧
    (∃ pre msg,
      (msg = "failed to allocate picture" ∨ msg = "failed to read pictures") ∧
      (vmafGetFrame d n env).1 =
        pre ++ [GFEvent.setError (d.filterName ++ ": " ++ msg),
                GFEvent.freeFrame HostFrame.ref, GFEvent.freeFrame HostFrame.dist,
                GFEvent.unrefPic Pic.ref, GFEvent.unrefPic Pic.dist]) ∧
    (vmafGetFrame d n env).1.count (GFEvent.readPictures n) ≤ 1 ∧
    (vmafGetFrame d n env).1.count (GFEvent.alloc Pic.ref) ≤ 1 ∧
    (vmafGetFrame d n env).1.count (GFEvent.alloc Pic.dist) ≤ 1 := by
  have hread : (copyEvents d.vi.format.numPlanes d.chroma).count (GFEvent.readPictures n) = 0 :=
    copyEvents_count_ne (by intro p k hpk; cases hpk)
  have haref : (copyEvents d.vi.format.numPlanes d.chroma).count (GFEvent.alloc Pic.ref) = 0 :=
    copyEvents_count_ne (by intro p k hpk; cases hpk)
  have hadist : (copyEvents d.vi.format.numPlanes d.chroma).count (GFEvent.alloc Pic.dist) = 0 :=
    copyEvents_count_ne (by intro p k hpk; cases hpk)
  cases hr : env.allocRefOk with
  | false =>
    refine ⟨?_, ⟨[GFEvent.getFrame HostFrame.ref, GFEvent.getFrame HostFrame.dist,
      GFEvent.alloc Pic.ref], "failed to allocate picture", Or.inl rfl, ?_⟩, ?_, ?_, ?_⟩ <;>
        simp [vmafGetFrame, gfFail, hr, List.count_append, List.count_cons]
  | true =>
    cases hd : env.allocDistOk with
    | false =>
      refine ⟨?_, ⟨[GFEvent.getFrame HostFrame.ref, GFEvent.getFrame HostFrame.dist,
        GFEvent.alloc Pic.ref, GFEvent.alloc Pic.dist], "failed to allocate picture",
        Or.inl rfl, ?_⟩, ?_, ?_, ?_⟩ <;>
          simp [vmafGetFrame, gfFail, hr, hd, List.count_append, List.count_cons]
    | true =>
      have hrd : env.readOk = false := by
        rw [hr, hd] at h
        simpa using h
      refine ⟨?_, ⟨[GFEvent.getFrame HostFrame.ref, GFEvent.getFrame HostFrame.dist,
        GFEvent.alloc Pic.ref, GFEvent.alloc Pic.dist]
          ++ copyEvents d.vi.format.numPlanes d.chroma ++ [GFEvent.readPictures n],
        "failed to read pictures", Or.inr rfl, ?_⟩, ?_, ?_, ?_⟩ <;>
          simp [vmafGetFrame, gfFail, hr, hd, hrd, List.count_append, List.count_cons,
            hread, haref, hadist]

/-- C2 witness at a concrete instance (reference picture allocation
fails). -/
theorem frame_failure_cleanup_witness :
    (({ allocRefOk := false, allocDistOk := true, readOk := true : FrameEnv}.allocRefOk
        && { allocRefOk := false, allocDistOk := true, readOk := true : FrameEnv}.allocDistOk
        && { allocRefOk := false, allocDistOk := true, readOk := true : FrameEnv}.readOk) = false) ∧
    ((vmafGetFrame dEx 0 { allocRefOk := false, allocDistOk := true, readOk := true }).2 = none ∧
    (∃ pre msg,
      (msg = "failed to allocate picture" ∨ msg = "failed to read pictures") ∧
      (vmafGetFrame dEx 0 { allocRefOk := false, allocDistOk := true, readOk := true }).1 =
        pre ++ [GFEvent.setError (dEx.filterName ++ ": " ++ msg),
                GFEvent.freeFrame HostFrame.ref, GFEvent.freeFrame HostFrame.dist,
                GFEvent.unrefPic Pic.ref, GFEvent.unrefPic Pic.dist]) ∧
    (vmafGetFrame dEx 0 { allocRefOk := false, allocDistOk := true, readOk := true
      }).1.count (GFEvent.readPictures 0) ≤ 1 ∧
    (vmafGetFrame dEx 0 { allocRefOk := false, allocDistOk := true, readOk := true
      }).1.count (GFEvent.alloc Pic.ref) ≤ 1 ∧
    (vmafGetFrame dEx 0 { allocRefOk := false, allocDistOk := true, readOk := true
      }).1.count (GFEvent.alloc Pic.dist) ≤ 1) :=
  ⟨rfl, frame_failure_cleanup dEx 0 { allocRefOk := false, allocDistOk := true, readOk := true } rfl⟩

/-- Every event of a `poolStep` block is the `vmaf_score_pooled` call
itself or a log message. -/
theorem poolStep_shape {d : VMAFData} {env : FreeEnv} {m : Int} {e : FreeEvent}
    (he : e ∈ poolStep d env m) :
    e = FreeEvent.scorePooled m 0 (d.vi.numFrames - 1) ∨ ∃ s, e = FreeEvent.logMsg s := by
  by_cases hp : env.poolOk m
  · simp [poolStep, hp] at he
    exact Or.inl he
  · simp [poolStep, hp] at he
    rcases he with he | he
    · exact Or.inl he
    · exact Or.inr ⟨_, he⟩

/-- Every event of a `poolCollStep` block is the
`vmaf_score_pooled_model_collection` call itself or a log message. -/
theorem poolCollStep_shape {d : VMAFData} {env : FreeEnv} {c : Int} {e : FreeEvent}
    (he : e ∈ poolCollStep d env c) :
    e = FreeEvent.scorePooledCollection c 0 (d.vi.numFrames - 1) ∨
      ∃ s, e = FreeEvent.logMsg s := by
  by_cases hp : env.poolCollOk c
  · simp [poolCollStep, hp] at he
    exact Or.inl he
  · simp [poolCollStep, hp] at he
    rcases he with he | he
    · exact Or.inl he
    · exact Or.inr ⟨_, he⟩

theorem count_zero_of_not_mem {l : List FreeEvent} {e : FreeEvent}
    (h : ∀ x ∈ l, x ≠ e) : l.count e = 0 :=
  List.count_eq_zero.mpr (fun hm => h _ hm rfl)

/-- C3 counterexample: at teardown the terminal flush call is
`vmaf_read_pictures(d->vmaf, nullptr, nullptr, 0)` — the index argument
is the literal `0`, not the last frame index.  On an instance with 3
frames (last index 2), no flush tagged with the last index occurs. -/
theorem teardown_flush_index_counterexample :
    FreeEvent.flush (dEx.vi.numFrames - 1) ∉ vmafFree dEx freeEnvOk ∧
    FreeEvent.flush 0 ∈ vmafFree dEx freeEnvOk := by
  constructor
  · decide
  · decide

/-- C3 (amended: the terminal flush submit passes the placeholder index
0, not the last frame index): teardown frees the two nodes, performs
exactly one flush, then for every model handle and every collection
handle attempts a pooled mean-score extraction over
[0, frameCount - 1], then attempts the log write, then destroys all
model and collection handles and closes the context; any step's failure
only inserts log messages and every later step still executes (the
statement holds for every oracle `env`). -/
theorem teardown_sequence (d : VMAFData) (env : FreeEnv) :
    (∃ log1 ext log3 : List FreeEvent,
      vmafFree d env =
        [FreeEvent.freeNode HostFrame.ref, FreeEvent.freeNode HostFrame.dist,
          FreeEvent.flush 0] ++ log1 ++ ext
        ++ [FreeEvent.writeOutput d.logPath d.logFormat] ++ log3
        ++ d.model.map FreeEvent.modelDestroy
        ++ d.modelCollection.map FreeEvent.collectionDestroy
        ++ [FreeEvent.close] ∧
      (∀ e ∈ log1, ∃ s, e = FreeEvent.logMsg s) ∧
      (∀ e ∈ log3, ∃ s, e = FreeEvent.logMsg s) ∧
      (∀ m ∈ d.model, FreeEvent.scorePooled m 0 (d.vi.numFrames - 1) ∈ ext) ∧
      (∀ c ∈ d.modelCollection,
        FreeEvent.scorePooledCollection c 0 (d.vi.numFrames - 1) ∈ ext) ∧
      (∀ e ∈ ext, (∃ m lo hi, e = FreeEvent.scorePooled m lo hi) ∨
        (∃ c lo hi, e = FreeEvent.scorePooledCollection c lo hi) ∨
        (∃ s, e = FreeEvent.logMsg s))) ∧
    (vmafFree d env).count (FreeEvent.flush 0) = 1 ∧
    (∀ i : Int, FreeEvent.flush i ∈ vmafFree d env → i = 0) := by
  have hde : vmafFree d env =
      [FreeEvent.freeNode HostFrame.ref, FreeEvent.freeNode HostFrame.dist,
        FreeEvent.flush 0]
      ++ (if env.flushOk then []
          else [FreeEvent.logMsg (d.filterName ++ ": failed to flush context")])
      ++ (d.model.flatMap (poolStep d env) ++ d.modelCollection.flatMap (poolCollStep d env))
      ++ [FreeEvent.writeOutput d.logPath d.logFormat]
      ++ (if env.writeOk then []
          else [FreeEvent.logMsg (d.filterName ++ ": failed to write VMAF stats")])
      ++ d.model.map FreeEvent.modelDestroy
      ++ d.modelCollection.map FreeEvent.collectionDestroy
      ++ [FreeEvent.close] := by
    simp [vmafFree, poolStep, poolCollStep]
  have hlog1 : ∀ e ∈ (if env.flushOk then []
      else [FreeEvent.logMsg (d.filterName ++ ": failed to flush context")]),
      ∃ s, e = FreeEvent.logMsg s := by
    by_cases hf : env.flushOk <;> simp [hf]
  have hlog3 : ∀ e ∈ (if env.writeOk then []
      else [FreeEvent.logMsg (d.filterName ++ ": failed to write VMAF stats")]),
      ∃ s, e = FreeEvent.logMsg s := by
    by_cases hw : env.writeOk <;> simp [hw]
  have hextShape : ∀ e ∈ d.model.flatMap (poolStep d env)
      ++ d.modelCollection.flatMap (poolCollStep d env),
      (∃ m lo hi, e = FreeEvent.scorePooled m lo hi) ∨
      (∃ c lo hi, e = FreeEvent.scorePooledCollection c lo hi) ∨
      (∃ s, e = FreeEvent.logMsg s) := by
    intro e he
    rcases List.mem_append.mp he with he | he
    · obtain ⟨m, -, hm⟩ := List.mem_flatMap.mp he
      rcases poolStep_shape hm with rfl | ⟨s, rfl⟩
      · exact Or.inl ⟨m, 0, d.vi.numFrames - 1, rfl⟩
      · exact Or.inr (Or.inr ⟨s, rfl⟩)
    · obtain ⟨c, -, hc⟩ := List.mem_flatMap.mp he
      rcases poolCollStep_shape hc with rfl | ⟨s, rfl⟩
      · exact Or.inr (Or.inl ⟨c, 0, d.vi.numFrames - 1, rfl⟩)
      · exact Or.inr (Or.inr ⟨s, rfl⟩)
  refine ⟨⟨_, _, _, hde, hlog1, hlog3, ?_, ?_, hextShape⟩, ?_, ?_⟩
  · intro m hm
    exact List.mem_append_left _
      (List.mem_flatMap.mpr ⟨m, hm, by simp [poolStep]⟩)
  · intro c hc
    exact List.mem_append_right _
      (List.mem_flatMap.mpr ⟨c, hc, by simp [poolCollStep]⟩)
  · rw [hde]
    have c1 : (if env.flushOk then []
        else [FreeEvent.logMsg (d.filterName ++ ": failed to flush context")]).count
        (FreeEvent.flush 0) = 0 :=
      count_zero_of_not_mem (by
        intro x hx hne
        obtain ⟨s, rfl⟩ := hlog1 x hx
        cases hne)
    have c2a : (d.model.flatMap (poolStep d env)).count (FreeEvent.flush 0) = 0 :=
      count_zero_of_not_mem (by
        intro x hx hne
        rcases hextShape x (List.mem_append_left _ hx) with
          ⟨m, lo, hi, rfl⟩ | ⟨c, lo, hi, rfl⟩ | ⟨s, rfl⟩ <;> cases hne)
    have c2b : (d.modelCollection.flatMap (poolCollStep d env)).count (FreeEvent.flush 0) = 0 :=
      count_zero_of_not_mem (by
        intro x hx hne
        rcases hextShape x (List.mem_append_right _ hx) with
          ⟨m, lo, hi, rfl⟩ | ⟨c, lo, hi, rfl⟩ | ⟨s, rfl⟩ <;> cases hne)
    have c3 : (if env.writeOk then []
        else [FreeEvent.logMsg (d.filterName ++ ": failed to write VMAF stats")]).count
        (FreeEvent.flush 0) = 0 :=
      count_zero_of_not_mem (by
        intro x hx hne
        obtain ⟨s, rfl⟩ := hlog3 x hx
        cases hne)
    have c4 : (d.model.map FreeEvent.modelDestroy).count (FreeEvent.flush 0) = 0 :=
      count_zero_of_not_mem (by
        intro x hx hne
        obtain ⟨m, -, rfl⟩ := List.mem_map.mp hx
        cases hne)
    have c5 : (d.modelCollection.map FreeEvent.collectionDestroy).count (FreeEvent.flush 0) = 0 :=
      count_zero_of_not_mem (by
        intro x hx hne
        obtain ⟨c, -, rfl⟩ := List.mem_map.mp hx
        cases hne)
    simp [List.count_append, c1, c2a, c2b, c3, c4, c5, List.count_cons]
  · intro i hi
    rw [hde] at hi
    rcases List.mem_append.mp hi with hi | hcl
    · rcases List.mem_append.mp hi with hi | hm2
      · rcases List.mem_append.mp hi with hi | hm1
        · rcases List.mem_append.mp hi with hi | hl3
          · rcases List.mem_append.mp hi with hi | hw
            · rcases List.mem_append.mp hi with hi | hext
              · rcases List.mem_append.mp hi with hh | hl1
                · simpa using hh
                · obtain ⟨s, hs⟩ := hlog1 _ hl1
                  cases hs
              · rcases hextShape _ hext with ⟨m, lo, hi2, h⟩ | ⟨c, lo, hi2, h⟩ | ⟨s, h⟩ <;>
                  cases h
            · simp at hw
          · obtain ⟨s, hs⟩ := hlog3 _ hl3
            cases hs
        · obtain ⟨m, -, hm⟩ := List.mem_map.mp hm1
          cases hm
      · obtain ⟨c, -, hc⟩ := List.mem_map.mp hm2
        cases hc
    · simp at hcl

/-- C4: resolution of one requested model id (valid range, no
duplicate, with the feature-registration calls succeeding): the
singleton `vmaf_model_load` is always attempted first; when it succeeds
the collection load is never attempted and the model's feature
extractors are registered into the scoring context (all during
`vmafCreate`, hence before any frame is submitted); when it fails the
collection load is attempted and, on success, the collection's feature
extractors are registered; when both loads fail the model loop aborts
at once with the named error carrying the offending model version
string (no remaining request is processed). -/
theorem model_resolution_order (env : CreateEnv) (all : List Int) (id : Int) (d : VMAFData)
    (hlo : 0 ≤ id) (hhi : id ≤ 3) (hdup : all.count id ≤ 1)
    (hum : env.useModelOk id = true) (huc : env.useCollectionOk id = true) :
    (env.modelLoadOk id = true →
      modelStep env all id d = .ok { d with
        model := d.model ++ [id],
        trace := d.trace ++ [EngineCall.loadModel id, EngineCall.useModel id] }) ∧
    (env.modelLoadOk id = false → env.collectionLoadOk id = true →
      modelStep env all id d = .ok { d with
        model := d.model ++ [id],
        modelCollection := d.modelCollection ++ [id],
        trace := d.trace ++ [EngineCall.loadModel id, EngineCall.loadCollection id,
          EngineCall.useCollection id] }) ∧
    (env.modelLoadOk id = false → env.collectionLoadOk id = false →
      ∀ rest, modelLoop env all (id :: rest) d =
        .error ("failed to load model: " ++ modelVersion id,
          { d with
            trace := d.trace ++ [EngineCall.loadModel id,
              EngineCall.loadCollection id] })) := by
  have hc1 : (decide (id < 0) || decide (id > 3)) = false := by
    simp only [Bool.or_eq_false_iff, decide_eq_false_iff_not, not_lt]
    omega
  have hc2 : ¬ all.count id > 1 := by omega
  refine ⟨fun hml => ?_, fun hml hcl => ?_, fun hml hcl rest => ?_⟩
  · simp [modelStep, hc1, hc2, hml, hum]
  · simp [modelStep, hc1, hc2, hml, hcl, huc]
  · simp [modelLoop, modelStep, hc1, hc2, hml, hcl]

/-- C4 witness at a concrete instance (id 0, singleton load succeeds). -/
theorem model_resolution_order_witness :
    ((0 : Int) ≤ 0 ∧ (0 : Int) ≤ 3 ∧ ([0] : List Int).count 0 ≤ 1 ∧
      envOk.useModelOk 0 = true ∧ envOk.useCollectionOk 0 = true) ∧
    ((envOk.modelLoadOk 0 = true →
      modelStep envOk [0] 0 dBase = .ok { dBase with
        model := dBase.model ++ [0],
        trace := dBase.trace ++ [EngineCall.loadModel 0, EngineCall.useModel 0] }) ∧
    (envOk.modelLoadOk 0 = false → envOk.collectionLoadOk 0 = true →
      modelStep envOk [0] 0 dBase = .ok { dBase with
        model := dBase.model ++ [0],
        modelCollection := dBase.modelCollection ++ [0],
        trace := dBase.trace ++ [EngineCall.loadModel 0, EngineCall.loadCollection 0,
          EngineCall.useCollection 0] }) ∧
    (envOk.modelLoadOk 0 = false → envOk.collectionLoadOk 0 = false →
      ∀ rest, modelLoop envOk [0] (0 :: rest) dBase =
        .error ("failed to load model: " ++ modelVersion 0,
          { dBase with
            trace := dBase.trace ++ [EngineCall.loadModel 0,
              EngineCall.loadCollection 0] }))) :=
  ⟨⟨by decide, by decide, by decide, rfl, rfl⟩,
    model_resolution_order envOk [0] 0 dBase (by decide) (by decide) (by decide) rfl rfl⟩

/-! Fixture for C5: one requested model whose singleton load fails and
whose collection load succeeds. -/

def inpC5 : CreateIn :=
  { refVi := viEx, distVi := viEx, logPath := "log.xml", logFormat := none,
    model := some [0], feature := none }

def envC5 : CreateEnv :=
  { envOk with modelLoadOk := fun _ => false }

/-- The instance data `vmafCreate` produces for `inpC5`/`envC5`. -/
def dC5 : VMAFData :=
  { filterName := "VMAF", logPath := "log.xml", logFormat := 1, model := [0],
    modelCollection := [0], chroma := false, pixelFormat := VMAF_PIX_FMT_YUV420P,
    vi := viEx,
    trace := [EngineCall.loadModel 0, EngineCall.loadCollection 0,
      EngineCall.useCollection 0] }

/-- C5 counterexample: a model request resolved through the collection
path leaves its model handle in `d->model` as well (the collection load
writes `&d->model[i]`), so at teardown that one loaded model receives
the singleton `vmaf_score_pooled` call in addition to the
collection extraction call — not only the call matching its variant. -/
theorem model_variant_extraction_counterexample :
    vmafCreate inpC5 envC5 = CreateResult.filter dC5 ∧
    dC5.model = [0] ∧ dC5.modelCollection = [0] ∧
    FreeEvent.scorePooled 0 0 (dC5.vi.numFrames - 1) ∈ vmafFree dC5 freeEnvOk ∧
    FreeEvent.scorePooledCollection 0 0 (dC5.vi.numFrames - 1) ∈ vmafFree dC5 freeEnvOk := by
  refine ⟨?_, ?_, ?_, ?_, ?_⟩ <;> decide

theorem count_scorePooled_flatMap (d : VMAFData) (env : FreeEnv) (l : List Int) (m : Int) :
    (l.flatMap (poolStep d env)).count (FreeEvent.scorePooled m 0 (d.vi.numFrames - 1))
      = l.count m := by
  induction l with
  | nil => simp
  | cons x xs ih =>
    by_cases hx : env.poolOk x <;>
      simp [poolStep, hx, List.count_cons, List.count_append, ih]

theorem count_scorePooledCollection_flatMap (d : VMAFData) (env : FreeEnv)
    (l : List Int) (c : Int) :
    (l.flatMap (poolCollStep d env)).count
      (FreeEvent.scorePooledCollection c 0 (d.vi.numFrames - 1)) = l.count c := by
  induction l with
  | nil => simp
  | cons x xs ih =>
    by_cases hx : env.poolCollOk x <;>
      simp [poolCollStep, hx, List.count_cons, List.count_append, ih]

/-- C5 (amended: the two load paths are mutually exclusive per request,
but a collection load also stores its model handle in the model list,
so extraction at teardown is driven by the two stored handle lists, not
by variant): every handle in the model list receives exactly one
singleton `vmaf_score_pooled` call over [0, frameCount-1] — including
handles that were produced by a collection load — and every collection
handle receives exactly one `vmaf_score_pooled_model_collection` call. -/
theorem teardown_extraction_per_handle (d : VMAFData) (env : FreeEnv) (m c : Int) :
    (vmafFree d env).count (FreeEvent.scorePooled m 0 (d.vi.numFrames - 1))
      = d.model.count m ∧
    (vmafFree d env).count (FreeEvent.scorePooledCollection c 0 (d.vi.numFrames - 1))
      = d.modelCollection.count c := by
  constructor
  · have h1 : (d.modelCollection.flatMap (poolCollStep d env)).count
        (FreeEvent.scorePooled m 0 (d.vi.numFrames - 1)) = 0 :=
      count_zero_of_not_mem (by
        intro x hx hne
        obtain ⟨cc, -, hc⟩ := List.mem_flatMap.mp hx
        rcases poolCollStep_shape hc with rfl | ⟨s, rfl⟩ <;> cases hne)
    by_cases hf : env.flushOk <;> by_cases hw : env.writeOk <;>
      simp [vmafFree, hf, hw, List.count_append, List.count_cons,
        count_scorePooled_flatMap, h1, List.count_eq_zero, List.mem_map]
  · have h1 : (d.model.flatMap (poolStep d env)).count
        (FreeEvent.scorePooledCollection c 0 (d.vi.numFrames - 1)) = 0 :=
      count_zero_of_not_mem (by
        intro x hx hne
        obtain ⟨mm, -, hm⟩ := List.mem_flatMap.mp hx
        rcases poolStep_shape hm with rfl | ⟨s, rfl⟩ <;> cases hne)
    by_cases hf : env.flushOk <;> by_cases hw : env.writeOk <;>
      simp [vmafFree, hf, hw, List.count_append, List.count_cons,
        count_scorePooledCollection_flatMap, h1, List.count_eq_zero, List.mem_map]

/-- A model-loop iteration never touches the chroma flag or the video
info. -/
theorem modelStep_inv {env : CreateEnv} {all : List Int} {id : Int} {d d' : VMAFData}
    (h : modelStep env all id d = .ok d') :
    d'.chroma = d.chroma ∧ d'.vi = d.vi ∧ d'.logFormat = d.logFormat := by
  unfold modelStep at h
  split at h
  · cases h
  · split at h
    · cases h
    · split at h
      · split at h
        · cases h
          exact ⟨rfl, rfl, rfl⟩
        · cases h
      · split at h
        · split at h
          · cases h
            exact ⟨rfl, rfl, rfl⟩
          · cases h
        · cases h

theorem modelLoop_inv {env : CreateEnv} {all : List Int} :
    ∀ {ids : List Int} {d d' : VMAFData}, modelLoop env all ids d = .ok d' →
      d'.chroma = d.chroma ∧ d'.vi = d.vi ∧ d'.logFormat = d.logFormat := by
  intro ids
  induction ids with
  | nil =>
    intro d d' h
    cases h
    exact ⟨rfl, rfl, rfl⟩
  | cons id rest ih =>
    intro d d' h
    unfold modelLoop at h
    cases hs : modelStep env all id d with
    | ok d2 =>
      rw [hs] at h
      obtain ⟨h1, h2, h5⟩ := ih h
      obtain ⟨h3, h4, h6⟩ := modelStep_inv hs
      exact ⟨h1.trans h3, h2.trans h4, h5.trans h6⟩
    | error e =>
      rw [hs] at h
      cases h

/-- A feature-loop iteration ors the chroma flag with
`id ∈ {0, 1, 4}` (the `switch` at lines 269-274) and never touches the
video info. -/
theorem featureStep_inv {env : CreateEnv} {all : List Int} {id : Int} {d d' : VMAFData}
    (h : featureStep env all id d = .ok d') :
    d'.chroma = (d.chroma || (id == 0 || id == 1 || id == 4)) ∧ d'.vi = d.vi ∧
    d'.logFormat = d.logFormat := by
  unfold featureStep at h
  split at h
  · cases h
  · split at h
    · cases h
    · split at h
      · by_cases hid : ((id == 0 || id == 1 || id == 4) : Bool) = true
        · simp only [hid, if_true, Except.ok.injEq] at h
          subst h
          simp [hid]
        · simp only [Bool.not_eq_true] at hid
          simp only [hid, Bool.false_eq_true, if_false, Except.ok.injEq] at h
          subst h
          simp [hid]
      · cases h

theorem featureLoop_inv {env : CreateEnv} {all : List Int} :
    ∀ {ids : List Int} {d d' : VMAFData}, featureLoop env all ids d = .ok d' →
      d'.chroma = (d.chroma || ids.any (fun f => f == 0 || f == 1 || f == 4)) ∧
      d'.vi = d.vi ∧ d'.logFormat = d.logFormat := by
  intro ids
  induction ids with
  | nil =>
    intro d d' h
    cases h
    exact ⟨by simp, rfl, rfl⟩
  | cons id rest ih =>
    intro d d' h
    unfold featureLoop at h
    cases hs : featureStep env all id d with
    | ok d2 =>
      rw [hs] at h
      obtain ⟨h1, h2, h5⟩ := ih h
      obtain ⟨h3, h4, h6⟩ := featureStep_inv hs
      refine ⟨?_, h2.trans h4, h5.trans h6⟩
      rw [h1, h3]
      simp [List.any_cons, Bool.or_assoc]
    | error e =>
      rw [hs] at h
      cases h

/-- A filter result of `vmafCreateTail` comes from successful runs of
both loops, the final pixel-format write leaving every other field of
the feature-loop output unchanged. -/
theorem vmafCreateTail_filter_inv {inp : CreateIn} {env : CreateEnv} {d2 d : VMAFData}
    (h : vmafCreateTail inp env d2 = CreateResult.filter d) :
    ∃ d3 d4, modelLoop env (inp.model.getD []) (inp.model.getD []) d2 = .ok d3 ∧
      featureLoop env (inp.feature.getD []) (inp.feature.getD []) d3 = .ok d4 ∧
      d.chroma = d4.chroma ∧ d.vi = d4.vi ∧ d.logFormat = d4.logFormat ∧
      d.logPath = d4.logPath ∧ d.model = d4.model ∧
      d.modelCollection = d4.modelCollection ∧ d.trace = d4.trace := by
  unfold vmafCreateTail at h
  split at h
  · cases h
  · rename_i d3 hml
    split at h
    · cases h
    · rename_i d4 hfl
      cases h
      exact ⟨d3, d4, hml, hfl, rfl, rfl, rfl, rfl, rfl, rfl, rfl⟩

/-- Every filter result of `vmafCreate` comes from `vmafCreateTail`
run on the validated instance data `vmafD2`. -/
theorem vmafCreate_filter_tail {inp : CreateIn} {env : CreateEnv} {d : VMAFData}
    (h : vmafCreate inp env = CreateResult.filter d) :
    vmafCreateTail inp env (vmafD2 inp) = CreateResult.filter d := by
  unfold vmafCreate at h
  split at h
  · cases h
  · split at h
    · cases h
    · split at h
      · cases h
      · split at h
        · cases h
        · split at h
          · cases h
          · split at h
            · cases h
            · split at h
              · cases h
              · split at h
                · cases h
                · split at h
                  · cases h
                  · exact h

/-- For a successfully created filter, the chroma flag equals "the
feature list contains 0, 1 or 4", and the instance keeps the reference
stream's video info. -/
theorem create_filter_inv {inp : CreateIn} {env : CreateEnv} {d : VMAFData}
    (h : vmafCreate inp env = CreateResult.filter d) :
    d.chroma = (inp.feature.getD []).any (fun f => f == 0 || f == 1 || f == 4) ∧
    d.vi = inp.refVi ∧
    d.logFormat = vmafLogFormatOf (inp.logFormat.getD 0) := by
  obtain ⟨d3, d4, hml, hfl, hc, hv, hlf, -, -, -, -⟩ :=
    vmafCreateTail_filter_inv (vmafCreate_filter_tail h)
  obtain ⟨hc4, hv4, hlf4⟩ := featureLoop_inv hfl
  obtain ⟨hc3, hv3, hlf3⟩ := modelLoop_inv hml
  refine ⟨?_, ?_, ?_⟩
  · rw [hc, hc4, hc3]
    simp [vmafD2, vmafD1, vmafD0]
  · rw [hv, hv4, hv3]
    simp [vmafD2, vmafD1, vmafD0]
  · rw [hlf, hlf4, hlf3]
    simp [vmafD2, vmafD1, vmafD0]

/-- Any event of the plane-copy block is in the frame trace whenever
both picture allocations succeeded (whether or not the submission then
fails). -/
theorem copyEvents_mem_trace {d : VMAFData} {n : Int} {fenv : FrameEnv}
    (ha1 : fenv.allocRefOk = true) (ha2 : fenv.allocDistOk = true) {e : GFEvent}
    (he : e ∈ copyEvents d.vi.format.numPlanes d.chroma) :
    e ∈ (vmafGetFrame d n fenv).1 := by
  cases hr : fenv.readOk <;> simp [vmafGetFrame, gfFail, ha1, ha2, hr, he]

/-- A plane-copy event is in the frame trace exactly when the copy loop
emits it (allocations succeeded). -/
theorem copyPlane_mem_iff {d : VMAFData} {n : Int} {fenv : FrameEnv}
    (ha1 : fenv.allocRefOk = true) (ha2 : fenv.allocDistOk = true) (pc : Pic) (p : Nat) :
    (GFEvent.copyPlane pc p ∈ (vmafGetFrame d n fenv).1 ↔
      GFEvent.copyPlane pc p ∈ copyEvents d.vi.format.numPlanes d.chroma) := by
  cases hr : fenv.readOk <;> simp [vmafGetFrame, gfFail, ha1, ha2, hr]

/-- C6: for a created filter (YUV input, hence 3 planes) whose frame
call got both pictures allocated: the chroma flag is set exactly when
the feature list contains one of psnr (0), psnr_hvs (1) or ciede (4);
the luma plane 0 is copied into both engine pictures; the chroma planes
1 and 2 are copied into both pictures when the flag is set, and no
chroma-plane copy happens at all when it is clear. -/
theorem chroma_copy_iff (inp : CreateIn) (env : CreateEnv) (d : VMAFData) (n : Int)
    (fenv : FrameEnv)
    (hcreate : vmafCreate inp env = CreateResult.filter d)
    (hnp : inp.refVi.format.numPlanes = 3)
    (ha1 : fenv.allocRefOk = true) (ha2 : fenv.allocDistOk = true) :
    (d.chroma = (inp.feature.getD []).any (fun f => f == 0 || f == 1 || f == 4)) ∧
    (GFEvent.copyPlane Pic.ref 0 ∈ (vmafGetFrame d n fenv).1 ∧
     GFEvent.copyPlane Pic.dist 0 ∈ (vmafGetFrame d n fenv).1) ∧
    (d.chroma = true →
      GFEvent.copyPlane Pic.ref 1 ∈ (vmafGetFrame d n fenv).1 ∧
      GFEvent.copyPlane Pic.dist 1 ∈ (vmafGetFrame d n fenv).1 ∧
      GFEvent.copyPlane Pic.ref 2 ∈ (vmafGetFrame d n fenv).1 ∧
      GFEvent.copyPlane Pic.dist 2 ∈ (vmafGetFrame d n fenv).1) ∧
    (d.chroma = false →
      GFEvent.copyPlane Pic.ref 1 ∉ (vmafGetFrame d n fenv).1 ∧
      GFEvent.copyPlane Pic.dist 1 ∉ (vmafGetFrame d n fenv).1 ∧
      GFEvent.copyPlane Pic.ref 2 ∉ (vmafGetFrame d n fenv).1 ∧
      GFEvent.copyPlane Pic.dist 2 ∉ (vmafGetFrame d n fenv).1) := by
  obtain ⟨hch, hvi, -⟩ := create_filter_inv hcreate
  have hnp3 : d.vi.format.numPlanes = 3 := by rw [hvi, hnp]
  refine ⟨hch, ?_, ?_, ?_⟩
  · constructor <;>
      · apply copyEvents_mem_trace ha1 ha2
        rw [hnp3]
        cases hc : d.chroma <;> decide
  · intro hc
    refine ⟨?_, ?_, ?_, ?_⟩ <;>
      · apply copyEvents_mem_trace ha1 ha2
        rw [hnp3, hc]
        decide
  · intro hc
    refine ⟨?_, ?_, ?_, ?_⟩ <;>
      · rw [copyPlane_mem_iff ha1 ha2, hnp3, hc]
        decide

/-! Fixture for C6's witness: a single requested feature, psnr (0). -/

def inpC6 : CreateIn :=
  { refVi := viEx, distVi := viEx, logPath := "log.xml", logFormat := none,
    model := none, feature := some [0] }

def dC6 : VMAFData :=
  { filterName := "VMAF", logPath := "log.xml", logFormat := 1, model := [],
    modelCollection := [], chroma := true, pixelFormat := VMAF_PIX_FMT_YUV420P,
    vi := viEx, trace := [EngineCall.useFeature 0] }

/-- C6 witness at a concrete instance. -/
theorem chroma_copy_iff_witness :
    (vmafCreate inpC6 envOk = CreateResult.filter dC6 ∧
      inpC6.refVi.format.numPlanes = 3 ∧
      frameEnvOk.allocRefOk = true ∧ frameEnvOk.allocDistOk = true) ∧
    ((dC6.chroma = (inpC6.feature.getD []).any (fun f => f == 0 || f == 1 || f == 4)) ∧
    (GFEvent.copyPlane Pic.ref 0 ∈ (vmafGetFrame dC6 0 frameEnvOk).1 ∧
     GFEvent.copyPlane Pic.dist 0 ∈ (vmafGetFrame dC6 0 frameEnvOk).1) ∧
    (dC6.chroma = true →
      GFEvent.copyPlane Pic.ref 1 ∈ (vmafGetFrame dC6 0 frameEnvOk).1 ∧
      GFEvent.copyPlane Pic.dist 1 ∈ (vmafGetFrame dC6 0 frameEnvOk).1 ∧
      GFEvent.copyPlane Pic.ref 2 ∈ (vmafGetFrame dC6 0 frameEnvOk).1 ∧
      GFEvent.copyPlane Pic.dist 2 ∈ (vmafGetFrame dC6 0 frameEnvOk).1) ∧
    (dC6.chroma = false →
      GFEvent.copyPlane Pic.ref 1 ∉ (vmafGetFrame dC6 0 frameEnvOk).1 ∧
      GFEvent.copyPlane Pic.dist 1 ∉ (vmafGetFrame dC6 0 frameEnvOk).1 ∧
      GFEvent.copyPlane Pic.ref 2 ∉ (vmafGetFrame dC6 0 frameEnvOk).1 ∧
      GFEvent.copyPlane Pic.dist 2 ∉ (vmafGetFrame dC6 0 frameEnvOk).1)) :=
  ⟨⟨by decide, rfl, rfl, rfl⟩,
    chroma_copy_iff inpC6 envOk dC6 0 frameEnvOk (by decide) rfl rfl rfl⟩

/-! Fixtures for C7: inputs failing the format, bit-depth and
subsampling validations. -/

def inpRGB : CreateIn :=
  { refVi := { format := { fmt420 with colorFamily := cfRGB }, width := 64,
               height := 64, numFrames := 3 },
    distVi := { format := { fmt420 with colorFamily := cfRGB }, width := 64,
                height := 64, numFrames := 3 },
    logPath := "log.xml", logFormat := none, model := none, feature := none }

def inpDepth9 : CreateIn :=
  { refVi := { format := { fmt420 with bitsPerSample := 9 }, width := 64,
               height := 64, numFrames := 3 },
    distVi := { format := { fmt420 with bitsPerSample := 9 }, width := 64,
                height := 64, numFrames := 3 },
    logPath := "log.xml", logFormat := none, model := none, feature := none }

def inpBadSub : CreateIn :=
  { refVi := { format := { fmt420 with subSamplingW := 0, subSamplingH := 1 },
               width := 64, height := 64, numFrames := 3 },
    distVi := { format := { fmt420 with subSamplingW := 0, subSamplingH := 1 },
                width := 64, height := 64, numFrames := 3 },
    logPath := "log.xml", logFormat := none, model := none, feature := none }

/-- C7: the format and bit-depth validations at lines 169-182 throw
`const char*` literals (no `s` suffix), which the
`catch (const std::string&)` handler at line 283 does not catch: on an
RGB input or a 9-bit input the exception escapes `vmafCreate` without
any filter-name-prefixed message being set and without any resource
release.  Only the subsampling validation (line 187), which throws a
`std::string`, reaches the handler and surfaces a prefixed message. -/
theorem setup_validation_uncaught :
    vmafCreate inpRGB envOk =
      CreateResult.uncaught "only constant YUV format integer input supported" ∧
    vmafCreate inpDepth9 envOk =
      CreateResult.uncaught "only 8, 10, 12 and 16 bit depth supported" ∧
    vmafCreate inpBadSub envOk =
      CreateResult.fail "VMAF: only 420/422/444 chroma subsampling is supported"
        (vmafD0 inpBadSub) := by
  refine ⟨?_, ?_, ?_⟩ <;> decide

/-- C8: with the single-stream validations passing and the engine/CUDA
initialization succeeding, a reference/distorted pair that differs in
format or dimensions (`vsh::isSameVideoInfo`) or in frame count always
makes construction fail with the corresponding message before any
frame can be processed, and an identical pair passes both checks
(construction proceeds to model/feature resolution). -/
theorem stream_match_check (inp : CreateIn) (env : CreateEnv)
    (h1 : (!isConstantVideoFormat inp.refVi
        || inp.refVi.format.colorFamily != cfYUV
        || inp.refVi.format.sampleType != stInteger) = false)
    (h2 : (!(inp.refVi.format.bitsPerSample == 8 || inp.refVi.format.bitsPerSample == 10
        || inp.refVi.format.bitsPerSample == 12 || inp.refVi.format.bitsPerSample == 16)) = false)
    (h3 : (!((inp.refVi.format.subSamplingW == 1 && inp.refVi.format.subSamplingH == 1)
        || (inp.refVi.format.subSamplingW == 1 && inp.refVi.format.subSamplingH == 0)
        || (inp.refVi.format.subSamplingW == 0 && inp.refVi.format.subSamplingH == 0))) = false)
    (h4 : 0 ≤ inp.logFormat.getD 0) (h5 : inp.logFormat.getD 0 ≤ 3)
    (h6 : env.initOk = true) (h7 : env.cudaStateOk = true) (h8 : env.cudaImportOk = true) :
    (isSameVideoInfo inp.distVi inp.refVi = false →
      vmafCreate inp env =
        CreateResult.fail "VMAF: both clips must have the same format and dimensions"
          (vmafD2 inp)) ∧
    (isSameVideoInfo inp.distVi inp.refVi = true →
      inp.distVi.numFrames ≠ inp.refVi.numFrames →
      vmafCreate inp env =
        CreateResult.fail "VMAF: both clips' number of frames do not match" (vmafD2 inp)) ∧
    (isSameVideoInfo inp.distVi inp.refVi = true →
      inp.distVi.numFrames = inp.refVi.numFrames →
      vmafCreate inp env = vmafCreateTail inp env (vmafD2 inp)) := by
  have hlf : (decide (inp.logFormat.getD 0 < 0) || decide (inp.logFormat.getD 0 > 3)) = false := by
    simp only [Bool.or_eq_false_iff, decide_eq_false_iff_not, not_lt]
    omega
  refine ⟨fun hm => ?_, fun hs hne => ?_, fun hs heq => ?_⟩
  · simp [vmafCreate, h1, h2, h3, hlf, h6, h7, h8, hm]
  · simp [vmafCreate, h1, h2, h3, hlf, h6, h7, h8, hs, hne]
  · simp [vmafCreate, h1, h2, h3, hlf, h6, h7, h8, hs, heq]

/-! Fixture for C8's witness: distorted stream with mismatched width. -/

def inpC8 : CreateIn :=
  { refVi := viEx,
    distVi := { format := fmt420, width := 32, height := 64, numFrames := 3 },
    logPath := "log.xml", logFormat := none, model := none, feature := none }

/-- C8 witness at a concrete instance. -/
theorem stream_match_check_witness :
    ((!isConstantVideoFormat inpC8.refVi
        || inpC8.refVi.format.colorFamily != cfYUV
        || inpC8.refVi.format.sampleType != stInteger) = false ∧
     (!(inpC8.refVi.format.bitsPerSample == 8 || inpC8.refVi.format.bitsPerSample == 10
        || inpC8.refVi.format.bitsPerSample == 12 || inpC8.refVi.format.bitsPerSample == 16)) = false ∧
     (!((inpC8.refVi.format.subSamplingW == 1 && inpC8.refVi.format.subSamplingH == 1)
        || (inpC8.refVi.format.subSamplingW == 1 && inpC8.refVi.format.subSamplingH == 0)
        || (inpC8.refVi.format.subSamplingW == 0 && inpC8.refVi.format.subSamplingH == 0))) = false ∧
     0 ≤ inpC8.logFormat.getD 0 ∧ inpC8.logFormat.getD 0 ≤ 3 ∧
     envOk.initOk = true ∧ envOk.cudaStateOk = true ∧ envOk.cudaImportOk = true) ∧
    ((isSameVideoInfo inpC8.distVi inpC8.refVi = false →
      vmafCreate inpC8 envOk =
        CreateResult.fail "VMAF: both clips must have the same format and dimensions"
          (vmafD2 inpC8)) ∧
    (isSameVideoInfo inpC8.distVi inpC8.refVi = true →
      inpC8.distVi.numFrames ≠ inpC8.refVi.numFrames →
      vmafCreate inpC8 envOk =
        CreateResult.fail "VMAF: both clips' number of frames do not match" (vmafD2 inpC8)) ∧
    (isSameVideoInfo inpC8.distVi inpC8.refVi = true →
      inpC8.distVi.numFrames = inpC8.refVi.numFrames →
      vmafCreate inpC8 envOk = vmafCreateTail inpC8 envOk (vmafD2 inpC8))) :=
  ⟨⟨by decide, by decide, by decide, by decide, by decide, rfl, rfl, rfl⟩,
    stream_match_check inpC8 envOk (by decide) (by decide) (by decide) (by decide)
      (by decide) rfl rfl rfl⟩

/-- A successful model-loop iteration implies its id passed the range
and duplicate checks. -/
theorem modelStep_ok_valid {env : CreateEnv} {all : List Int} {id : Int} {d d' : VMAFData}
    (h : modelStep env all id d = .ok d') :
    0 ≤ id ∧ id ≤ 3 ∧ all.count id ≤ 1 := by
  unfold modelStep at h
  split at h
  · cases h
  · rename_i hc1
    split at h
    · cases h
    · rename_i hc2
      simp only [Bool.or_eq_true, decide_eq_true_eq, not_or] at hc1
      obtain ⟨ha, hb⟩ := hc1
      refine ⟨by omega, by omega, by omega⟩

theorem modelLoop_ok_valid {env : CreateEnv} {all : List Int} :
    ∀ {ids : List Int} {d d' : VMAFData}, modelLoop env all ids d = .ok d' →
      ∀ id ∈ ids, 0 ≤ id ∧ id ≤ 3 ∧ all.count id ≤ 1 := by
  intro ids
  induction ids with
  | nil =>
    intro d d' h id hid
    simp at hid
  | cons x rest ih =>
    intro d d' h id hid
    unfold modelLoop at h
    cases hs : modelStep env all x d with
    | ok d2 =>
      rw [hs] at h
      rcases List.mem_cons.mp hid with rfl | hid
      · exact modelStep_ok_valid hs
      · exact ih h id hid
    | error e =>
      rw [hs] at h
      cases h

/-- A successful feature-loop iteration implies its id passed the range
and duplicate checks. -/
theorem featureStep_ok_valid {env : CreateEnv} {all : List Int} {id : Int} {d d' : VMAFData}
    (h : featureStep env all id d = .ok d') :
    0 ≤ id ∧ id ≤ 4 ∧ all.count id ≤ 1 := by
  unfold featureStep at h
  split at h
  · cases h
  · rename_i hc1
    split at h
    · cases h
    · rename_i hc2
      simp only [Bool.or_eq_true, decide_eq_true_eq, not_or] at hc1
      obtain ⟨ha, hb⟩ := hc1
      refine ⟨by omega, by omega, by omega⟩

theorem featureLoop_ok_valid {env : CreateEnv} {all : List Int} :
    ∀ {ids : List Int} {d d' : VMAFData}, featureLoop env all ids d = .ok d' →
      ∀ id ∈ ids, 0 ≤ id ∧ id ≤ 4 ∧ all.count id ≤ 1 := by
  intro ids
  induction ids with
  | nil =>
    intro d d' h id hid
    simp at hid
  | cons x rest ih =>
    intro d d' h id hid
    unfold featureLoop at h
    cases hs : featureStep env all x d with
    | ok d2 =>
      rw [hs] at h
      rcases List.mem_cons.mp hid with rfl | hid
      · exact featureStep_ok_valid hs
      · exact ih h id hid
    | error e =>
      rw [hs] at h
      cases h

/-- C9: with the single-stream format validations passing, an
out-of-range `log_format` selector makes construction fail with the
dedicated message; any out-of-range or duplicated entry in the model or
feature list (wherever it sits in the list) prevents the filter from
ever being created, under every engine oracle; a created filter's
output encoding is the selector's image under the fixed encoding map,
and that map sends the four selectors 0-3 to four distinct encodings. -/
theorem selector_validation (inp : CreateIn) (env : CreateEnv) (d : VMAFData)
    (h1 : (!isConstantVideoFormat inp.refVi
        || inp.refVi.format.colorFamily != cfYUV
        || inp.refVi.format.sampleType != stInteger) = false)
    (h2 : (!(inp.refVi.format.bitsPerSample == 8 || inp.refVi.format.bitsPerSample == 10
        || inp.refVi.format.bitsPerSample == 12 || inp.refVi.format.bitsPerSample == 16)) = false)
    (h3 : (!((inp.refVi.format.subSamplingW == 1 && inp.refVi.format.subSamplingH == 1)
        || (inp.refVi.format.subSamplingW == 1 && inp.refVi.format.subSamplingH == 0)
        || (inp.refVi.format.subSamplingW == 0 && inp.refVi.format.subSamplingH == 0))) = false) :
    ((inp.logFormat.getD 0 < 0 ∨ inp.logFormat.getD 0 > 3) →
      vmafCreate inp env =
        CreateResult.fail "VMAF: log_format must be 0, 1, 2, or 3" (vmafD1 inp)) ∧
    (((∃ id ∈ inp.model.getD [], id < 0 ∨ id > 3 ∨ 1 < (inp.model.getD []).count id) ∨
      (∃ id ∈ inp.feature.getD [], id < 0 ∨ id > 4 ∨ 1 < (inp.feature.getD []).count id)) →
      (vmafCreate inp env).isFilter = false) ∧
    (vmafCreate inp env = CreateResult.filter d →
      d.logFormat = vmafLogFormatOf (inp.logFormat.getD 0)) ∧
    ([0, 1, 2, 3].map vmafLogFormatOf).Nodup := by
  refine ⟨fun hv => ?_, fun hviol => ?_, fun hf => (create_filter_inv hf).2.2, by decide⟩
  · have hlf : (decide (inp.logFormat.getD 0 < 0) || decide (inp.logFormat.getD 0 > 3)) = true := by
      rcases hv with hv | hv <;> simp [hv]
    simp [vmafCreate, h1, h2, h3, hlf]
  · cases hres : vmafCreate inp env with
    | filter dd =>
      exfalso
      obtain ⟨d3, d4, hml, hfl, -, -, -, -, -, -, -⟩ :=
        vmafCreateTail_filter_inv (vmafCreate_filter_tail hres)
      rcases hviol with ⟨id, hid, hbad⟩ | ⟨id, hid, hbad⟩
      · have := modelLoop_ok_valid hml id hid
        omega
      · have := featureLoop_ok_valid hfl id hid
        omega
    | fail msg dT => rfl
    | uncaught msg => rfl

/-! Fixture for C9's witness: an out-of-range selector and an
out-of-range model id. -/

def inpC9 : CreateIn :=
  { refVi := viEx, distVi := viEx, logPath := "log.xml", logFormat := some 7,
    model := some [5], feature := none }

/-- C9 witness at a concrete instance. -/
theorem selector_validation_witness :
    ((!isConstantVideoFormat inpC9.refVi
        || inpC9.refVi.format.colorFamily != cfYUV
        || inpC9.refVi.format.sampleType != stInteger) = false ∧
     (!(inpC9.refVi.format.bitsPerSample == 8 || inpC9.refVi.format.bitsPerSample == 10
        || inpC9.refVi.format.bitsPerSample == 12 || inpC9.refVi.format.bitsPerSample == 16)) = false ∧
     (!((inpC9.refVi.format.subSamplingW == 1 && inpC9.refVi.format.subSamplingH == 1)
        || (inpC9.refVi.format.subSamplingW == 1 && inpC9.refVi.format.subSamplingH == 0)
        || (inpC9.refVi.format.subSamplingW == 0 && inpC9.refVi.format.subSamplingH == 0))) = false) ∧
    (((inpC9.logFormat.getD 0 < 0 ∨ inpC9.logFormat.getD 0 > 3) →
      vmafCreate inpC9 envOk =
        CreateResult.fail "VMAF: log_format must be 0, 1, 2, or 3" (vmafD1 inpC9)) ∧
    (((∃ id ∈ inpC9.model.getD [], id < 0 ∨ id > 3 ∨ 1 < (inpC9.model.getD []).count id) ∨
      (∃ id ∈ inpC9.feature.getD [], id < 0 ∨ id > 4 ∨ 1 < (inpC9.feature.getD []).count id)) →
      (vmafCreate inpC9 envOk).isFilter = false) ∧
    (vmafCreate inpC9 envOk = CreateResult.filter dEx →
      dEx.logFormat = vmafLogFormatOf (inpC9.logFormat.getD 0)) ∧
    ([0, 1, 2, 3].map vmafLogFormatOf).Nodup) :=
  ⟨⟨by decide, by decide, by decide⟩,
    selector_validation inpC9 envOk dEx (by decide) (by decide) (by decide)⟩

/-- C10: when `log_format`, `model` and `feature` are all omitted,
construction never fails with the `log_format` validation message (the
selector defaults to 0), and any filter that is created uses the first
output encoding (selector 0's image), carries empty model and
collection lists, performed no engine registration call at all, and has
the chroma flag clear. -/
theorem omitted_optionals_default (inp : CreateIn) (env : CreateEnv) (d : VMAFData)
    (h1 : inp.logFormat = none) (h2 : inp.model = none) (h3 : inp.feature = none) :
    (vmafCreate inp env).failMsg ≠ some "VMAF: log_format must be 0, 1, 2, or 3" ∧
    (vmafCreate inp env = CreateResult.filter d →
      d.logFormat = vmafLogFormatOf 0 ∧ d.model = [] ∧ d.modelCollection = [] ∧
      d.chroma = false ∧ d.trace = []) := by
  constructor
  · unfold vmafCreate
    rw [h1]
    split
    · simp [CreateResult.failMsg]
    · split
      · simp [CreateResult.failMsg]
      · split
        · simp [CreateResult.failMsg]
        · split
          · rename_i hbad
            exact absurd hbad (by decide)
          · split
            · simp [CreateResult.failMsg]
            · split
              · simp [CreateResult.failMsg]
              · split
                · simp [CreateResult.failMsg]
                · split
                  · simp [CreateResult.failMsg]
                  · split
                    · simp [CreateResult.failMsg]
                    · unfold vmafCreateTail
                      rw [h2, h3]
                      simp [Option.getD_none, modelLoop, featureLoop, CreateResult.failMsg]
  · intro hf
    have ht := vmafCreate_filter_tail hf
    unfold vmafCreateTail at ht
    rw [h2, h3] at ht
    have ht2 : CreateResult.filter { vmafD2 inp with pixelFormat :=
        if inp.refVi.format.subSamplingW == 1 && inp.refVi.format.subSamplingH == 1 then
          VMAF_PIX_FMT_YUV420P
        else if inp.refVi.format.subSamplingW == 1 && inp.refVi.format.subSamplingH == 0 then
          VMAF_PIX_FMT_YUV422P
        else VMAF_PIX_FMT_YUV444P } = CreateResult.filter d := ht
    cases ht2
    simp [vmafD2, vmafD1, vmafD0, h1]

/-! Fixture for C10's witness: all optional inputs omitted. -/

def inpPlain : CreateIn :=
  { refVi := viEx, distVi := viEx, logPath := "log.xml", logFormat := none,
    model := none, feature := none }

def dPlain : VMAFData :=
  { filterName := "VMAF", logPath := "log.xml", logFormat := 1, model := [],
    modelCollection := [], chroma := false, pixelFormat := VMAF_PIX_FMT_YUV420P,
    vi := viEx, trace := [] }

/-- C10 witness at a concrete instance. -/
theorem omitted_optionals_default_witness :
    (inpPlain.logFormat = none ∧ inpPlain.model = none ∧ inpPlain.feature = none) ∧
    ((vmafCreate inpPlain envOk).failMsg ≠ some "VMAF: log_format must be 0, 1, 2, or 3" ∧
    (vmafCreate inpPlain envOk = CreateResult.filter dPlain →
      dPlain.logFormat = vmafLogFormatOf 0 ∧ dPlain.model = [] ∧
      dPlain.modelCollection = [] ∧ dPlain.chroma = false ∧ dPlain.trace = [])) :=
  ⟨⟨rfl, rfl, rfl⟩, omitted_optionals_default inpPlain envOk dPlain rfl rfl rfl⟩
